import Mathlib

/-!
# Verification of the DMS token-lifecycle backend core

Shallow embedding of the DMS backend (token lifecycle manager, rate
limiter, upstream API client, encryption wrapper) and proofs of the
spec claims about it.  Instants are modelled as integers counting
seconds (UTC); database tables are modelled as lists of rows in
insertion order, with an auto-increment id counter.
-/

namespace DMS

/-! ## Encryption (src/backend/app/utils/encryption.py)

The repository wraps the external `cryptography.fernet.Fernet`
primitive; only the wrapper is repository code.  The primitive itself
is modelled from the spec. -/

/-- A Fernet ciphertext.  Modelled from the spec: the `cryptography`
library's Fernet primitive is external to the repository; per §4.1 it
is an authenticated symmetric scheme whose ciphertexts decrypt to the
original plaintext under the encrypting key and fail to decrypt under
any other key.  The model records the encrypting key and the message;
the authentication tag check is modelled by comparing keys. -/
structure Ciph where
  keyUsed : String
  msg : String
deriving DecidableEq, Repr

/-- Python-level exceptions that the embedded code can raise. -/
inductive PyError where
  /-- `TypeError`, e.g. a call missing a required positional argument. -/
  | typeError (msg : String)
  /-- `cryptography.fernet.InvalidToken`: ciphertext/key mismatch. -/
  | invalidToken
  /-- `ValueError` (used by range validation and missing-key startup). -/
  | valueError (msg : String)
  /-- `DexcomAPIError(status_code, message, details)`. -/
  | dexcomAPIError (status_code : Nat) (message : String) (details : Option String)
  /-- `RateLimitError()` — subclass of `DexcomAPIError` raised on HTTP 429. -/
  | rateLimitError
deriving DecidableEq, Repr

/-- Modelled from the spec: `Fernet(key).encrypt(msg)` of the external
cryptography library. -/
def fernetEncrypt (key msg : String) : Ciph := ⟨key, msg⟩

/-- Modelled from the spec: `Fernet(key).decrypt(c)` of the external
cryptography library — returns the plaintext when `c` was produced
under `key`, raises `InvalidToken` otherwise. -/
def fernetDecrypt (key : String) (c : Ciph) : Except PyError String :=
  if c.keyUsed = key then .ok c.msg else .error .invalidToken

/-- `EncryptionService` (encryption.py:9-22): holds the Fernet cipher
built from the configured `ENCRYPTION_KEY`. -/
structure EncryptionService where
  cipherKey : String
deriving DecidableEq, Repr

/-- `EncryptionService.__init__` (encryption.py:12-22): fails with
`ValueError` when no encryption key is configured, else builds the
cipher from the key. -/
def EncryptionService.init (encryption_key : String) : Except PyError EncryptionService :=
  if encryption_key = "" then
    .error (.valueError "ENCRYPTION_KEY not set in environment.")
  else
    .ok ⟨encryption_key⟩

/-- `EncryptionService.encrypt` (encryption.py:24-35). -/
def EncryptionService.encrypt (svc : EncryptionService) (plaintext : String) : Ciph :=
  fernetEncrypt svc.cipherKey plaintext

/-- `EncryptionService.decrypt` (encryption.py:37-48). -/
def EncryptionService.decrypt (svc : EncryptionService) (ciphertext : Ciph) :
    Except PyError String :=
  fernetDecrypt svc.cipherKey ciphertext

/-- Module-level `encrypt` (encryption.py:63-74), with the global
service's key made explicit. -/
def encrypt (key plaintext : String) : Ciph :=
  EncryptionService.encrypt ⟨key⟩ plaintext

/-- Module-level `decrypt` (encryption.py:77-88), with the global
service's key made explicit. -/
def decrypt (key : String) (ciphertext : Ciph) : Except PyError String :=
  EncryptionService.decrypt ⟨key⟩ ciphertext

/-! ## Data model (src/backend/app/models/database.py) -/

/-- `User` row (database.py:11-35). -/
structure User where
  id : Nat
  firebase_uid : Option String
  email : Option String
  is_active : Bool
deriving DecidableEq, Repr

/-- `DexcomToken` row (database.py:38-78).  Times are seconds. -/
structure DexcomToken where
  id : Nat
  user_id : Nat
  access_token_encrypted : Ciph
  refresh_token_encrypted : Ciph
  token_type : String
  expires_in : Int
  expires_at : Int
  created_at : Int
  updated_at : Int
  oauthState : Option String
  scope : String
  is_revoked : Bool
  revoked_at : Option Int
deriving DecidableEq, Repr

/-- `DexcomToken.is_expired` (database.py:80-82):
`datetime.now() >= self.expires_at`. -/
def DexcomToken.is_expired (t : DexcomToken) (now : Int) : Bool :=
  t.expires_at ≤ now

/-- `DexcomToken.is_expiring_soon` (database.py:84-92):
`datetime.now() >= self.expires_at - threshold` (default 300s). -/
def DexcomToken.is_expiring_soon (t : DexcomToken) (now threshold_seconds : Int) : Bool :=
  t.expires_at - threshold_seconds ≤ now

/-- `DexcomToken.calculate_expires_at` (database.py:94-107):
`datetime.now(utc) + timedelta(seconds=expires_in)`, with the current
instant made explicit. -/
def DexcomToken.calculate_expires_at (now expires_in : Int) : Int :=
  now + expires_in

/-- `OAuthToken` (models/dexcom.py): the grant returned by the
upstream token endpoint. -/
structure OAuthToken where
  access_token : String
  refresh_token : String
  token_type : String
  expires_in : Int
deriving DecidableEq, Repr

/-! ## Rate limiter (src/backend/app/services/rate_limiter.py)

The per-key request log is a list of admitted instants; the state for
one key is modelled (keys are independent, rate_limiter.py:28). -/

/-- `RateLimiter` configuration (rate_limiter.py:18-27). -/
structure RateLimiter where
  max_requests : Nat
  window_seconds : Int
deriving DecidableEq, Repr

/-- The pruning step of `is_allowed` (rate_limiter.py:49-52): keep the
timestamps strictly newer than `now - window_seconds`. -/
def RateLimiter.prune (rl : RateLimiter) (now : Int) (log : List Int) : List Int :=
  log.filter (fun ts => now - rl.window_seconds < ts)

/-- `RateLimiter.is_allowed` (rate_limiter.py:31-63) for one key:
returns `((allowed, remaining), new_log)`. -/
def RateLimiter.is_allowed (rl : RateLimiter) (now : Int) (log : List Int) :
    (Bool × Nat) × List Int :=
  let pruned := rl.prune now log
  let current_count := pruned.length
  if rl.max_requests ≤ current_count then
    ((false, 0), pruned)
  else
    ((true, rl.max_requests - current_count - 1), pruned ++ [now])

/-! ## Database state

Tables as lists of rows in insertion order, with auto-increment id
counters; a SQLAlchemy `query(...).filter(...).first()` with no
`order_by` returns the first matching row in table order. -/

/-- In-memory model of the SQL database. -/
structure DB where
  users : List User
  tokens : List DexcomToken
  next_user_id : Nat
  next_token_id : Nat
deriving DecidableEq, Repr

/-- The empty database. -/
def DB.empty : DB := ⟨[], [], 1, 1⟩

/-- The filter `DexcomToken.user_id == user_id, DexcomToken.is_revoked == False`
used by every token query in token_storage.py. -/
def activeFor (user_id : Nat) (t : DexcomToken) : Bool :=
  t.user_id == user_id && !t.is_revoked

/-- All non-revoked token rows of a user, in table order. -/
def DB.activeTokens (db : DB) (user_id : Nat) : List DexcomToken :=
  db.tokens.filter (activeFor user_id)

/-- `query.filter(active).first()` — no `order_by`, so the first
matching row in table order (token_storage.py:81-85, 181-185). -/
def DB.firstActive (db : DB) (user_id : Nat) : Option DexcomToken :=
  (db.activeTokens user_id).head?

/-- `query.filter(active).order_by(created_at.desc()).first()`
(token_storage.py:133-138): a non-revoked row of the user with
maximal `created_at` (the earliest such row on ties). -/
def DB.latestActive (db : DB) (user_id : Nat) : Option DexcomToken :=
  (db.activeTokens user_id).foldl
    (fun acc t =>
      match acc with
      | none => some t
      | some a => if a.created_at < t.created_at then some t else some a)
    none

/-- Replace the first element satisfying `p` by its image under `f`
(models updating in place the row returned by `first()`). -/
def updateFirst (p : α → Bool) (f : α → α) : List α → List α
  | [] => []
  | x :: xs => if p x then f x :: xs else x :: updateFirst p f xs

/-! ## Token storage service (src/backend/app/services/token_storage.py)

`self.db` is threaded explicitly; the configured encryption key and
the current instant are explicit parameters. -/

/-- `TokenStorageService.get_or_create_user` (token_storage.py:22-49).
`if firebase_uid:` / `elif email:` use Python truthiness, so `None`
and the empty string both skip the lookup. -/
def get_or_create_user (fuid email : Option String) (db : DB) : User × DB :=
  let truthy : Option String → Bool := fun o =>
    match o with
    | none => false
    | some s => !(s == "")
  let found : Option User :=
    if truthy fuid then
      db.users.find? (fun u => u.firebase_uid == fuid)
    else if truthy email then
      db.users.find? (fun u => u.email == email)
    else
      none
  match found with
  | some u => (u, db)
  | none =>
      let u : User := ⟨db.next_user_id, fuid, email, true⟩
      (u, { db with users := db.users ++ [u], next_user_id := db.next_user_id + 1 })

/-- The updated-row function of the `existing_token` branch of
`store_tokens` (token_storage.py:87-96): secrets, token type,
expires_in, expires_at, scope and updated_at are overwritten;
id, user_id, state, created_at and revocation fields are kept. -/
def storeUpdate (key : String) (now : Int) (oauth_token : OAuthToken) (scope : String)
    (t : DexcomToken) : DexcomToken :=
  { t with
    access_token_encrypted := encrypt key oauth_token.access_token
    refresh_token_encrypted := encrypt key oauth_token.refresh_token
    token_type := oauth_token.token_type
    expires_in := oauth_token.expires_in
    expires_at := DexcomToken.calculate_expires_at now oauth_token.expires_in
    scope := scope
    updated_at := now }

/-- `TokenStorageService.store_tokens` (token_storage.py:51-114):
encrypts both secrets, computes `expires_at`, then updates the first
non-revoked row of the user in place if one exists, else inserts a
new non-revoked row.  Returns the stored row and the new database. -/
def store_tokens (key : String) (now : Int) (user_id : Nat) (oauth_token : OAuthToken)
    (oauthState : Option String) (scope : String) (db : DB) : DexcomToken × DB :=
  match db.firstActive user_id with
  | some existing_token =>
      let token_record := storeUpdate key now oauth_token scope existing_token
      (token_record,
       { db with tokens := updateFirst (activeFor user_id)
                             (storeUpdate key now oauth_token scope) db.tokens })
  | none =>
      let token_record : DexcomToken :=
        { id := db.next_token_id
          user_id := user_id
          access_token_encrypted := encrypt key oauth_token.access_token
          refresh_token_encrypted := encrypt key oauth_token.refresh_token
          token_type := oauth_token.token_type
          expires_in := oauth_token.expires_in
          expires_at := DexcomToken.calculate_expires_at now oauth_token.expires_in
          created_at := now
          updated_at := now
          oauthState := oauthState
          scope := scope
          is_revoked := false
          revoked_at := none }
      (token_record,
       { db with tokens := db.tokens ++ [token_record],
                 next_token_id := db.next_token_id + 1 })

/-- `TokenStorageService.revoke_tokens` (token_storage.py:195-212):
sets the revoked flag and timestamp on every non-revoked row of the
user. -/
def revoke_tokens (now : Int) (user_id : Nat) (db : DB) : DB :=
  { db with tokens := db.tokens.map (fun t =>
      if activeFor user_id t then { t with is_revoked := true, revoked_at := some now }
      else t) }

/-! ## Upstream API client (src/backend/app/services/dexcom_api.py)

Network I/O is modelled by oracles supplying the HTTP response the
upstream would return; everything after the response arrives follows
the source. -/

/-- The configuration fields read by `DexcomAPIClient.__init__`
(config.py / dexcom_api.py:43-49). -/
structure Settings where
  dexcomClientId : String
  dexcomClientSecret : String
  dexcomRedirectUri : String
  dexcomAuthBaseUrl : String
  dexcomBaseUrl : String
deriving DecidableEq, Repr

/-- `DexcomAPIClient` instance fields (dexcom_api.py:43-56). -/
structure DexcomAPIClient where
  base_url : String
  auth_base_url : String
  client_id : String
  client_secret : String
  redirect_uri : String
deriving DecidableEq, Repr

/-- `DexcomAPIClient.__init__(self, settings)` (dexcom_api.py:43-56):
`settings` is a required positional argument, so a call supplying no
argument raises `TypeError` instead of producing a client. -/
def DexcomAPIClient.init (settings : Option Settings) : Except PyError DexcomAPIClient :=
  match settings with
  | none =>
      .error (.typeError
        "DexcomAPIClient.__init__ missing 1 required positional argument: settings")
  | some s =>
      .ok { base_url := s.dexcomBaseUrl
            auth_base_url := s.dexcomAuthBaseUrl
            client_id := s.dexcomClientId
            client_secret := s.dexcomClientSecret
            redirect_uri := s.dexcomRedirectUri }

/-- `str(e)` for the modelled Python exceptions
(`DexcomAPIError.__init__` builds `f"Dexcom API Error {status}: {message}"`,
dexcom_api.py:27). -/
def pyStr : PyError → String
  | .typeError m => m
  | .invalidToken => ""
  | .valueError m => m
  | .dexcomAPIError status_code message _ =>
      "Dexcom API Error " ++ toString status_code ++ ": " ++ message
  | .rateLimitError =>
      "Dexcom API Error 429: Rate limit exceeded. Max 60,000 requests per hour."

/-- An HTTP response from the upstream API: status code and body. -/
structure HTTPResponse where
  status_code : Nat
  text : String
deriving DecidableEq, Repr

/-- `DexcomAPIClient._make_request` (dexcom_api.py:143-189) after the
GET returned `response`: the error-classification ladder.  On 200 the
parsed body is returned (the JSON payload is modelled by the body
string). -/
def _make_request (response : HTTPResponse) : Except PyError String :=
  if response.status_code = 429 then
    .error .rateLimitError
  else if response.status_code = 401 then
    .error (.dexcomAPIError 401 "Unauthorized - token may be expired" none)
  else if response.status_code = 400 then
    .error (.dexcomAPIError 400 "Bad Request" (some response.text))
  else if response.status_code = 404 then
    .error (.dexcomAPIError 404 "Endpoint not found" none)
  else if response.status_code = 500 then
    .error (.dexcomAPIError 500 "Internal Server Error" none)
  else if response.status_code ≠ 200 then
    .error (.dexcomAPIError response.status_code "API request failed" (some response.text))
  else
    .ok response.text

/-- `DexcomAPIClient._validate_time_range` (dexcom_api.py:191-203):
raises `ValueError` when `end_date - start_date > timedelta(days=30)`.
Instants are seconds, so 30 days is `30 * 86400`. -/
def _validate_time_range (start_date end_date : Int) : Except PyError Unit :=
  if 30 * 86400 < end_date - start_date then
    .error (.valueError "Time range cannot exceed 30 days")
  else
    .ok ()

/-- Common shape of the four ranged data operations: validate the
range first; only if validation passes perform the one authenticated
GET.  The second component counts network calls issued. -/
def rangedFetch (response : HTTPResponse) (start_date end_date : Int) :
    Except PyError String × Nat :=
  match _validate_time_range start_date end_date with
  | .error e => (.error e, 0)
  | .ok _ => (_make_request response, 1)

/-- `DexcomAPIClient.get_egvs` (dexcom_api.py:205-230). -/
def get_egvs (response : HTTPResponse) (start_date end_date : Int) :
    Except PyError String × Nat :=
  rangedFetch response start_date end_date

/-- `DexcomAPIClient.get_calibrations` (dexcom_api.py:232-257). -/
def get_calibrations (response : HTTPResponse) (start_date end_date : Int) :
    Except PyError String × Nat :=
  rangedFetch response start_date end_date

/-- `DexcomAPIClient.get_events` (dexcom_api.py:285-310). -/
def get_events (response : HTTPResponse) (start_date end_date : Int) :
    Except PyError String × Nat :=
  rangedFetch response start_date end_date

/-- `DexcomAPIClient.get_alerts` (dexcom_api.py:312-337). -/
def get_alerts (response : HTTPResponse) (start_date end_date : Int) :
    Except PyError String × Nat :=
  rangedFetch response start_date end_date

/-- What the upstream token endpoint replies to a refresh POST. -/
inductive TokenEndpointReply where
  | ok (token : OAuthToken)
  | httpError (status_code : Nat) (text : String)
deriving DecidableEq, Repr

/-- `DexcomAPIClient.refresh_access_token` (dexcom_api.py:114-141):
posts the refresh grant; non-200 raises
`DexcomAPIError(status, "Failed to refresh access token", body)`,
200 yields the new `OAuthToken`. -/
def DexcomAPIClient.refresh_access_token (_client : DexcomAPIClient)
    (reply : TokenEndpointReply) : Except PyError OAuthToken :=
  match reply with
  | .ok token => .ok token
  | .httpError status_code text =>
      .error (.dexcomAPIError status_code "Failed to refresh access token" (some text))

/-- Result of `TokenStorageService.get_valid_token`. -/
inductive GetValidTokenResult where
  | ok (access_token : String) (record : DexcomToken) (db : DB)
  | httpError (status_code : Nat) (detail : String) (db : DB)
  | uncaught (e : PyError)
deriving DecidableEq, Repr

/-- `TokenStorageService.get_valid_token` (token_storage.py:116-166).
Fetches the latest non-revoked row (401 if none); if `auto_refresh`
and the row is expiring within 300s, runs the refresh try-block:
decrypt the refresh secret, construct `DexcomAPIClient()` — the call
at token_storage.py:151 passes no settings argument — call its
refresh operation, store the new grant preserving the prior scope;
any exception there becomes a 401.  Finally decrypts and returns the
access secret.  `refreshReply` is the upstream token endpoint
oracle. -/
def get_valid_token (key : String) (now : Int) (refreshReply : String → TokenEndpointReply)
    (user_id : Nat) (auto_refresh : Bool) (db : DB) : GetValidTokenResult :=
  match db.latestActive user_id with
  | none =>
      .httpError 401 "No Dexcom authorization found. Please authorize with Dexcom first." db
  | some token_record =>
      let tryRefresh : Except PyError (DexcomToken × DB) :=
        if auto_refresh && token_record.is_expiring_soon now 300 then
          match decrypt key token_record.refresh_token_encrypted with
          | .error e => .error e
          | .ok refresh_token =>
              match DexcomAPIClient.init none with
              | .error e => .error e
              | .ok dexcom_client =>
                  match dexcom_client.refresh_access_token (refreshReply refresh_token) with
                  | .error e => .error e
                  | .ok new_oauth_token =>
                      .ok (store_tokens key now user_id new_oauth_token none
                             token_record.scope db)
        else
          .ok (token_record, db)
      match tryRefresh with
      | .error e =>
          .httpError 401
            ("Failed to refresh access token. User may need to re-authorize: " ++ pyStr e) db
      | .ok (token_record2, db2) =>
          match decrypt key token_record2.access_token_encrypted with
          | .ok access_token => .ok access_token token_record2 db2
          | .error e => .uncaught e

/-- Result of `TokenStorageService.get_refresh_token`. -/
inductive GetRefreshTokenResult where
  | ok (refresh_token : String)
  | httpError (status_code : Nat) (detail : String)
  | uncaught (e : PyError)
deriving DecidableEq, Repr

/-- `TokenStorageService.get_refresh_token` (token_storage.py:168-193):
first non-revoked row of the user (no ordering clause), 401 if none,
else the decrypted refresh secret. -/
def get_refresh_token (key : String) (user_id : Nat) (db : DB) : GetRefreshTokenResult :=
  match db.firstActive user_id with
  | none => .httpError 401 "No Dexcom authorization found."
  | some token_record =>
      match decrypt key token_record.refresh_token_encrypted with
      | .ok s => .ok s
      | .error e => .uncaught e

/-! ## Invariants and sample data -/

/-- Number of non-revoked token rows of a user. -/
def DB.countActive (db : DB) (user_id : Nat) : Nat :=
  (db.activeTokens user_id).length

/-- The spec's per-principal invariant (§3): at most one non-revoked
credential record per principal. -/
def atMostOneActive (db : DB) (user_id : Nat) : Prop :=
  db.countActive user_id ≤ 1

/-- All stored ciphertexts of the database were produced under the
configured key. -/
def encryptedUnder (db : DB) (key : String) : Prop :=
  ∀ t ∈ db.tokens, t.access_token_encrypted.keyUsed = key ∧
    t.refresh_token_encrypted.keyUsed = key

/-- The §8 scenario grant: exchange of code abc at `T0 = 0`. -/
def sampleGrant : OAuthToken := ⟨"A1", "R1", "Bearer", 7200⟩

/-- The §8 scenario grant returned by the upstream refresh. -/
def refreshedGrant : OAuthToken := ⟨"A2", "R2", "Bearer", 7200⟩

/-- The §8 scenario database: principal 1 stored `sampleGrant` at
`T0 = 0` under key `"K"`. -/
def scenarioDB : DB :=
  (store_tokens "K" 0 1 sampleGrant none "offline_access" DB.empty).2

/-! ## Helper lemmas -/

lemma updateFirst_length (p : α → Bool) (f : α → α) :
    ∀ l : List α, (updateFirst p f l).length = l.length := by
  intro l
  induction l with
  | nil => rfl
  | cons x xs ih =>
      by_cases hx : p x <;> simp [updateFirst, hx, ih]

lemma filter_updateFirst (p : α → Bool) (f : α → α) (hf : ∀ x, p (f x) = p x) :
    ∀ l : List α, (updateFirst p f l).filter p = (l.filter p).modifyHead f := by
  intro l
  induction l with
  | nil => rfl
  | cons x xs ih =>
      by_cases hx : p x
      · simp [updateFirst, hx, List.filter_cons, hf]
      · simp [updateFirst, hx, List.filter_cons, ih]

lemma eq_singleton_of_head?_of_length_le {l : List α} {x : α}
    (h1 : l.head? = some x) (h2 : l.length ≤ 1) : l = [x] := by
  cases l with
  | nil => simp at h1
  | cons y ys =>
      cases ys with
      | nil => simp at h1; simp [h1]
      | cons z zs => simp at h2

lemma activeFor_storeUpdate (user_id : Nat) (key : String) (now : Int)
    (grant : OAuthToken) (scope : String) (t : DexcomToken) :
    activeFor user_id (storeUpdate key now grant scope t) = activeFor user_id t := rfl

lemma latestActive_of_activeTokens_nil {db : DB} {user_id : Nat}
    (h : db.activeTokens user_id = []) : db.latestActive user_id = none := by
  unfold DB.latestActive
  rw [h]
  rfl

lemma latestActive_of_activeTokens_singleton {db : DB} {user_id : Nat} {t : DexcomToken}
    (h : db.activeTokens user_id = [t]) : db.latestActive user_id = some t := by
  unfold DB.latestActive
  rw [h]
  rfl

lemma firstActive_of_activeTokens {db : DB} {user_id : Nat} :
    db.firstActive user_id = (db.activeTokens user_id).head? := rfl

/-! ## Claim theorems -/

/-- C4: `store_tokens` called at instant `T` with a grant whose
`expires_in` is 7200 stores a record with `expires_at = T + 7200`
exactly; on that record `is_expired` is false at `T+7199` and true at
`T+7200`; and with the default 300s threshold `is_expiring_soon` is
true at `expires_at - 300` and false at `expires_at - 301`. -/
theorem store_tokens_expiry_thresholds (key : String) (T : Int) (user_id : Nat)
    (grant : OAuthToken) (st : Option String) (scope : String) (db : DB)
    (hg : grant.expires_in = 7200) :
    (store_tokens key T user_id grant st scope db).1.expires_at = T + 7200 ∧
    (store_tokens key T user_id grant st scope db).1.is_expired (T + 7199) = false ∧
    (store_tokens key T user_id grant st scope db).1.is_expired (T + 7200) = true ∧
    (store_tokens key T user_id grant st scope db).1.is_expiring_soon
      ((store_tokens key T user_id grant st scope db).1.expires_at - 300) 300 = true ∧
    (store_tokens key T user_id grant st scope db).1.is_expiring_soon
      ((store_tokens key T user_id grant st scope db).1.expires_at - 301) 300 = false := by
  have hexp : (store_tokens key T user_id grant st scope db).1.expires_at = T + 7200 := by
    unfold store_tokens
    cases hfa : db.firstActive user_id <;>
      simp [storeUpdate, DexcomToken.calculate_expires_at, hg]
  refine ⟨hexp, ?_, ?_, ?_, ?_⟩ <;>
    · simp [DexcomToken.is_expired, DexcomToken.is_expiring_soon, hexp]
      try omega

/-- Witness for C4 at `T = 100` with the §8 sample grant. -/
theorem store_tokens_expiry_thresholds_witness :
    (store_tokens "K" 100 1 sampleGrant none "offline_access" DB.empty).1.expires_at
      = 100 + 7200 :=
  (store_tokens_expiry_thresholds "K" 100 1 sampleGrant none "offline_access"
    DB.empty (by decide)).1

/-- C5: for each of the four ranged data operations, a span of exactly
30 days passes validation and the one authenticated GET is issued
(call count 1, result the classified response), while a span
exceeding 30 days — in particular 30 days + 1 second — fails with the
`ValueError` of `_validate_time_range` and no network call is made
(call count 0). -/
theorem ranged_ops_thirty_day_validation (response : HTTPResponse)
    (start_date end_date : Int) :
    (end_date - start_date = 30 * 86400 →
      get_egvs response start_date end_date = (_make_request response, 1) ∧
      get_calibrations response start_date end_date = (_make_request response, 1) ∧
      get_events response start_date end_date = (_make_request response, 1) ∧
      get_alerts response start_date end_date = (_make_request response, 1)) ∧
    (30 * 86400 < end_date - start_date →
      get_egvs response start_date end_date
        = (.error (.valueError "Time range cannot exceed 30 days"), 0) ∧
      get_calibrations response start_date end_date
        = (.error (.valueError "Time range cannot exceed 30 days"), 0) ∧
      get_events response start_date end_date
        = (.error (.valueError "Time range cannot exceed 30 days"), 0) ∧
      get_alerts response start_date end_date
        = (.error (.valueError "Time range cannot exceed 30 days"), 0)) := by
  constructor
  · intro h
    have hv : _validate_time_range start_date end_date = .ok () := by
      unfold _validate_time_range
      rw [if_neg (by omega)]
    simp [get_egvs, get_calibrations, get_events, get_alerts, rangedFetch, hv]
  · intro h
    have hv : _validate_time_range start_date end_date
        = .error (.valueError "Time range cannot exceed 30 days") := by
      unfold _validate_time_range
      rw [if_pos h]
    simp [get_egvs, get_calibrations, get_events, get_alerts, rangedFetch, hv]

/-- Witness for C5: a 200-response fetch over exactly 30 days is
accepted, and over 30 days + 1 second is rejected with no call. -/
theorem ranged_ops_thirty_day_validation_witness :
    get_egvs ⟨200, "data"⟩ 0 (30 * 86400) = (.ok "data", 1) ∧
    get_egvs ⟨200, "data"⟩ 0 (30 * 86400 + 1)
      = (.error (.valueError "Time range cannot exceed 30 days"), 0) := by
  constructor
  · have h := (ranged_ops_thirty_day_validation ⟨200, "data"⟩ 0 (30 * 86400)).1
      (by decide)
    rw [h.1]
    rfl
  · exact ((ranged_ops_thirty_day_validation ⟨200, "data"⟩ 0 (30 * 86400 + 1)).2
      (by decide)).1

/-- C6: decryption after encryption under the same configured key
returns the original plaintext, for every string; decrypting under
any other key a ciphertext produced under key `k` raises the
decryption error instead of returning a value. -/
theorem encrypt_decrypt_round_trip (k k2 s : String) (hne : k ≠ k2) :
    decrypt k (encrypt k s) = .ok s ∧
    decrypt k2 (encrypt k s) = .error .invalidToken := by
  constructor
  · simp [decrypt, encrypt, EncryptionService.encrypt, EncryptionService.decrypt,
      fernetEncrypt, fernetDecrypt]
  · simp [decrypt, encrypt, EncryptionService.encrypt, EncryptionService.decrypt,
      fernetEncrypt, fernetDecrypt]
    intro h
    exact absurd h hne

/-- Witness for C6 with two concrete distinct keys. -/
theorem encrypt_decrypt_round_trip_witness :
    decrypt "KEY1" (encrypt "KEY1" "secret") = .ok "secret" ∧
    decrypt "KEY2" (encrypt "KEY1" "secret") = .error .invalidToken :=
  encrypt_decrypt_round_trip "KEY1" "KEY2" "secret" (by decide)

/-- C10: `get_or_create_user` invoked with neither a firebase uid nor
an email always inserts and returns a brand-new active user row with
the next id — it never returns an existing user — so two such calls
yield two distinct principals. -/
theorem get_or_create_user_fresh (db : DB) :
    (get_or_create_user none none db).2.users
      = db.users ++ [(get_or_create_user none none db).1] ∧
    (get_or_create_user none none db).1.is_active = true ∧
    (get_or_create_user none none db).1.id = db.next_user_id ∧
    (get_or_create_user none none (get_or_create_user none none db).2).1.id
      ≠ (get_or_create_user none none db).1.id := by
  refine ⟨rfl, rfl, rfl, ?_⟩
  show db.next_user_id + 1 ≠ db.next_user_id
  omega

/-- C1 (code bug): in the §8 scenario — principal 1 stored the grant
`{access: A1, refresh: R1, expiresIn: 7200}` at `T0 = 0`, clock at
`T0 + 7100` (within the 300s threshold) — `get_valid_token` with
`auto_refresh = true` enters the refresh path but fails with the 401
refresh error for EVERY upstream reply, because the call
`DexcomAPIClient()` at token_storage.py:151 omits the `settings`
argument that `DexcomAPIClient.__init__` requires, so the `TypeError`
is swallowed by the blanket `except`; in particular it never returns
the refreshed access token A2. -/
theorem get_valid_token_refresh_always_unauthorized
    (refreshReply : String → TokenEndpointReply) :
    get_valid_token "K" 7100 refreshReply 1 true scenarioDB =
      .httpError 401
        ("Failed to refresh access token. User may need to re-authorize: DexcomAPIClient.__init__ missing 1 required positional argument: settings")
        scenarioDB ∧
    ∀ record db2,
      get_valid_token "K" 7100 refreshReply 1 true scenarioDB ≠ .ok "A2" record db2 := by
  have h : get_valid_token "K" 7100 refreshReply 1 true scenarioDB =
      .httpError 401
        ("Failed to refresh access token. User may need to re-authorize: DexcomAPIClient.__init__ missing 1 required positional argument: settings")
        scenarioDB := rfl
  refine ⟨h, ?_⟩
  intro record db2 hcontra
  rw [h] at hcontra
  exact absurd hcontra (by simp)

/-- Modelled from the spec: claim C3's pruning step in its own words —
remove exactly the recorded timestamps strictly older than `now − W`,
keeping those at `now − W` or later. -/
def RateLimiter.pruneClaimed (rl : RateLimiter) (now : Int) (log : List Int) : List Int :=
  log.filter (fun ts => now - rl.window_seconds ≤ ts)

/-- Modelled from the spec: claim C3's `admit` — identical to
`is_allowed` except that it prunes per the claim's words. -/
def RateLimiter.is_allowedClaimed (rl : RateLimiter) (now : Int) (log : List Int) :
    (Bool × Nat) × List Int :=
  let pruned := rl.pruneClaimed now log
  let current_count := pruned.length
  if rl.max_requests ≤ current_count then
    ((false, 0), pruned)
  else
    ((true, rl.max_requests - current_count - 1), pruned ++ [now])

/-- C3 counterexample: with capacity 1, window 60s, and one request
recorded exactly at `now − W` (timestamp 0, now 60), the code prunes
that timestamp (it keeps only `ts > now − W`) and admits the request,
whereas pruning only the timestamps strictly older than `now − W`, as
the claim states, would keep it and deny — so `is_allowed` does not
prune \"timestamps older than now − W\". -/
theorem is_allowed_prune_boundary_counterexample :
    (RateLimiter.mk 1 60).is_allowed 60 [0] = ((true, 0), [60]) ∧
    (RateLimiter.mk 1 60).is_allowedClaimed 60 [0] = ((false, 0), [0]) ∧
    (RateLimiter.mk 1 60).is_allowed 60 [0]
      ≠ (RateLimiter.mk 1 60).is_allowedClaimed 60 [0] := by
  decide

/-- C3 (amended): `is_allowed` first prunes the recorded timestamps at
or before `now − W` (those not strictly inside the window), keeping
the rest in order; if the count after pruning is at least `N` it
returns `(false, 0)` without recording the request; otherwise it
appends `now` and returns `(true, N − count − 1)`.  With `max = 3`,
`window = 60`: admits at 0, 10, 20 return remaining 2, 1, 0; a fourth
at 30 is denied with remaining 0 and nothing recorded; at 100, past
the window, admission succeeds again. -/
theorem is_allowed_spec (rl : RateLimiter) (now : Int) (log pruned : List Int)
    (hp : pruned = rl.prune now log) :
    List.Sublist pruned log ∧
    (∀ ts : Int, ts ∈ pruned ↔ ts ∈ log ∧ now - rl.window_seconds < ts) ∧
    (rl.max_requests ≤ pruned.length → rl.is_allowed now log = ((false, 0), pruned)) ∧
    (pruned.length < rl.max_requests →
      rl.is_allowed now log
        = ((true, rl.max_requests - pruned.length - 1), pruned ++ [now])) ∧
    (RateLimiter.mk 3 60).is_allowed 0 [] = ((true, 2), [0]) ∧
    (RateLimiter.mk 3 60).is_allowed 10 [0] = ((true, 1), [0, 10]) ∧
    (RateLimiter.mk 3 60).is_allowed 20 [0, 10] = ((true, 0), [0, 10, 20]) ∧
    (RateLimiter.mk 3 60).is_allowed 30 [0, 10, 20] = ((false, 0), [0, 10, 20]) ∧
    (RateLimiter.mk 3 60).is_allowed 100 [0, 10, 20] = ((true, 2), [100]) := by
  subst hp
  refine ⟨List.filter_sublist _, ?_, ?_, ?_,
    by decide, by decide, by decide, by decide, by decide⟩
  · intro ts
    simp [RateLimiter.prune, List.mem_filter]
  · intro h
    simp only [RateLimiter.is_allowed]
    rw [if_pos h]
  · intro h
    simp only [RateLimiter.is_allowed]
    rw [if_neg (by omega)]

/-- Witness for C3 (amended) at the denied fourth request of the
scenario state. -/
theorem is_allowed_spec_witness :
    (RateLimiter.mk 3 60).is_allowed 30 [0, 10, 20] = ((false, 0), [0, 10, 20]) :=
  (is_allowed_spec (RateLimiter.mk 3 60) 30 [0, 10, 20] [0, 10, 20]
    (by decide)).2.2.1 (by decide)

/-- The spec's §4.2/§7 error taxonomy for the authenticated GET. -/
inductive ErrClass where
  | success
  | rateLimit
  | authFailure
  | validationFailure
  | notFound
  | unavailable
  | upstreamGeneric
deriving DecidableEq, Repr

/-- Abstraction map from `_make_request` outcomes to the spec's error
classes: each distinct raise site of dexcom_api.py:172-187 is
identified by its message literal (`RateLimitError` by its own
class). -/
def classOf : Except PyError String → ErrClass
  | .ok _ => .success
  | .error .rateLimitError => .rateLimit
  | .error (.dexcomAPIError _ message _) =>
      if message = "Unauthorized - token may be expired" then .authFailure
      else if message = "Bad Request" then .validationFailure
      else if message = "Endpoint not found" then .notFound
      else if message = "Internal Server Error" then .unavailable
      else .upstreamGeneric
  | .error _ => .upstreamGeneric

/-- Modelled from the spec: claim C7's classification by HTTP status —
in particular EVERY 5xx status maps to `UpstreamUnavailableError`. -/
def claimClassify (status : Nat) : ErrClass :=
  if status = 429 then .rateLimit
  else if status = 401 then .authFailure
  else if status = 400 then .validationFailure
  else if status = 404 then .notFound
  else if 500 ≤ status ∧ status ≤ 599 then .unavailable
  else if status ≠ 200 then .upstreamGeneric
  else .success

/-- The amended classification: only status 500 maps to
`UpstreamUnavailableError`; any other non-200 status — including 5xx
statuses other than 500 — maps to the generic `UpstreamError`. -/
def amendedClassify (status : Nat) : ErrClass :=
  if status = 429 then .rateLimit
  else if status = 401 then .authFailure
  else if status = 400 then .validationFailure
  else if status = 404 then .notFound
  else if status = 500 then .unavailable
  else if status ≠ 200 then .upstreamGeneric
  else .success

/-- C7 counterexample: HTTP 502 — a 5xx status — is classified by the
code as the generic `UpstreamError` carrying status and body (the
`else` branch of `_make_request`), not as the
`UpstreamUnavailableError` class that status 500 receives, refuting
\"every 5xx status raises UpstreamUnavailableError\". -/
theorem make_request_502_counterexample :
    _make_request ⟨502, "bad gateway"⟩
      = .error (.dexcomAPIError 502 "API request failed" (some "bad gateway")) ∧
    classOf (_make_request ⟨502, "bad gateway"⟩) = ErrClass.upstreamGeneric ∧
    claimClassify 502 = ErrClass.unavailable ∧
    classOf (_make_request ⟨502, "bad gateway"⟩) ≠ claimClassify 502 :=
  ⟨rfl, rfl, rfl, by decide⟩

/-- C7 (amended): `_make_request` classifies every response exactly
as: 429 → rate-limit error, 401 → auth error, 400 → validation error
carrying the upstream detail, 404 → not-found, 500 →
`UpstreamUnavailableError`, any other non-200 status (including 5xx
other than 500) → generic `UpstreamError` carrying status and body,
and 200 → the parsed body. -/
theorem make_request_classification (status : Nat) (body : String) :
    classOf (_make_request ⟨status, body⟩) = amendedClassify status ∧
    (status = 400 →
      _make_request ⟨status, body⟩
        = .error (.dexcomAPIError 400 "Bad Request" (some body))) ∧
    (status = 200 → _make_request ⟨status, body⟩ = .ok body) ∧
    (status ≠ 200 → status ≠ 429 → status ≠ 401 → status ≠ 400 → status ≠ 404 →
      status ≠ 500 →
      _make_request ⟨status, body⟩
        = .error (.dexcomAPIError status "API request failed" (some body))) := by
  by_cases h429 : status = 429
  · subst h429; exact ⟨rfl, by simp, by simp, by simp⟩
  by_cases h401 : status = 401
  · subst h401; exact ⟨rfl, by simp, by simp, by simp⟩
  by_cases h400 : status = 400
  · subst h400; exact ⟨rfl, fun _ => rfl, by simp, by simp⟩
  by_cases h404 : status = 404
  · subst h404; exact ⟨rfl, by simp, by simp, by simp⟩
  by_cases h500 : status = 500
  · subst h500; exact ⟨rfl, by simp, by simp, by simp⟩
  by_cases h200 : status = 200
  · subst h200; exact ⟨rfl, by simp, fun _ => rfl, by simp⟩
  · have hm : _make_request ⟨status, body⟩
        = .error (.dexcomAPIError status "API request failed" (some body)) := by
      simp [_make_request, h429, h401, h400, h404, h500, h200]
    refine ⟨?_, by simp [h400], by simp [h200], fun _ _ _ _ _ _ => hm⟩
    rw [hm]
    have hc : classOf (.error (.dexcomAPIError status "API request failed" (some body)))
        = ErrClass.upstreamGeneric := rfl
    rw [hc]
    unfold amendedClassify
    rw [if_neg h429, if_neg h401, if_neg h400, if_neg h404, if_neg h500, if_pos h200]

/-- Witness for C7 (amended) at status 502: the generic upstream
error with status and body. -/
theorem make_request_classification_witness :
    classOf (_make_request ⟨502, "b"⟩) = amendedClassify 502 ∧
    _make_request ⟨502, "b"⟩ = .error (.dexcomAPIError 502 "API request failed" (some "b")) :=
  ⟨(make_request_classification 502 "b").1,
   (make_request_classification 502 "b").2.2.2 (by decide) (by decide) (by decide)
     (by decide) (by decide) (by decide)⟩

/-- C2: under the at-most-one-non-revoked-record invariant,
`store_tokens` leaves the principal with exactly one non-revoked
record whose `expires_at` is recomputed as `now + expires_in` from the
stored grant; when a non-revoked record existed it is updated in
place via `storeUpdate` (secrets, token type, expires_in, expires_at,
scope, updated_at) and no row is inserted (table length unchanged);
otherwise exactly one new non-revoked row is appended. -/
theorem store_tokens_single_active (key : String) (now : Int) (user_id : Nat)
    (grant : OAuthToken) (st : Option String) (scope : String) (db : DB)
    (h : atMostOneActive db user_id) :
    (store_tokens key now user_id grant st scope db).2.countActive user_id = 1 ∧
    (∀ t ∈ (store_tokens key now user_id grant st scope db).2.activeTokens user_id,
      t.expires_at = now + grant.expires_in ∧ t.is_revoked = false ∧ t.scope = scope) ∧
    (∀ t0, db.firstActive user_id = some t0 →
      (store_tokens key now user_id grant st scope db).2.tokens.length
        = db.tokens.length ∧
      (store_tokens key now user_id grant st scope db).1
        = storeUpdate key now grant scope t0) ∧
    (db.firstActive user_id = none →
      (store_tokens key now user_id grant st scope db).2.tokens
        = db.tokens ++ [(store_tokens key now user_id grant st scope db).1]) := by
  cases hfa : db.firstActive user_id with
  | none =>
      have hnil : db.tokens.filter (activeFor user_id) = [] := by
        have h0 : db.firstActive user_id = (db.activeTokens user_id).head? :=
          firstActive_of_activeTokens
        rw [hfa] at h0
        have := List.head?_eq_none_iff.mp h0.symm
        simpa [DB.activeTokens] using this
      have hnew : activeFor user_id
          (store_tokens key now user_id grant st scope db).1 = true := by
        simp only [store_tokens, hfa]
        simp [activeFor]
      constructor
      · simp only [DB.countActive, DB.activeTokens, store_tokens, hfa]
        rw [List.filter_append, hnil]
        simp only [store_tokens, hfa] at hnew
        simp [List.filter_cons, hnew]
      constructor
      · intro t ht
        simp only [DB.activeTokens, store_tokens, hfa] at ht
        rw [List.filter_append, hnil] at ht
        simp only [store_tokens, hfa] at hnew
        simp [List.filter_cons, hnew] at ht
        subst ht
        simp [DexcomToken.calculate_expires_at]
      constructor
      · intro t0 ht0
        exact absurd ht0 (by simp)
      · intro _
        simp only [store_tokens, hfa]
  | some t0 =>
      have hsingle : db.tokens.filter (activeFor user_id) = [t0] := by
        have h0 : db.firstActive user_id = (db.activeTokens user_id).head? :=
          firstActive_of_activeTokens
        rw [hfa] at h0
        have := eq_singleton_of_head?_of_length_le h0.symm h
        simpa [DB.activeTokens] using this
      have ht0mem : t0 ∈ db.tokens.filter (activeFor user_id) := by
        rw [hsingle]; simp
      have ht0active : activeFor user_id t0 = true := (List.mem_filter.mp ht0mem).2
      have ht0rev : t0.is_revoked = false := by
        simp [activeFor] at ht0active
        exact ht0active.2
      have hfilter : (updateFirst (activeFor user_id)
            (storeUpdate key now grant scope) db.tokens).filter (activeFor user_id)
          = [storeUpdate key now grant scope t0] := by
        rw [filter_updateFirst _ _
          (fun x => activeFor_storeUpdate user_id key now grant scope x), hsingle]
        rfl
      constructor
      · simp only [DB.countActive, DB.activeTokens, store_tokens, hfa]
        rw [hfilter]
        rfl
      constructor
      · intro t ht
        simp only [DB.activeTokens, store_tokens, hfa] at ht
        rw [hfilter] at ht
        simp at ht
        subst ht
        simp [storeUpdate, DexcomToken.calculate_expires_at, ht0rev]
      constructor
      · intro t1 ht1
        have ht1' : t0 = t1 := by injection ht1
        subst ht1'
        constructor
        · simp only [store_tokens, hfa]
          exact updateFirst_length _ _ _
        · simp only [store_tokens, hfa]
      · intro hcontra
        exact absurd hcontra (by simp)

/-- Witness for C2: storing the refreshed §8 grant into the scenario
database (one active record) leaves exactly one non-revoked record. -/
theorem store_tokens_single_active_witness :
    (store_tokens "K" 7100 1 refreshedGrant none "offline_access" scenarioDB).2.countActive 1
      = 1 :=
  (store_tokens_single_active "K" 7100 1 refreshedGrant none "offline_access" scenarioDB
    (show scenarioDB.countActive 1 ≤ 1 by decide)).1

/-- C8: `revoke_tokens` marks every currently non-revoked record of
the principal revoked with the revocation timestamp, leaves already
revoked rows and other principals' rows unchanged, is idempotent
(revoking again, at any later instant, changes nothing), and after a
revoke `get_valid_token` for that principal fails with the 401
no-authorization error. -/
theorem revoke_tokens_idempotent (now now2 : Int) (user_id : Nat) (db : DB)
    (key : String) (t : Int) (refreshReply : String → TokenEndpointReply) (ar : Bool) :
    (∀ tok ∈ db.tokens, activeFor user_id tok = true →
      ({ tok with is_revoked := true, revoked_at := some now } : DexcomToken)
        ∈ (revoke_tokens now user_id db).tokens) ∧
    (∀ tok ∈ db.tokens, activeFor user_id tok = false →
      tok ∈ (revoke_tokens now user_id db).tokens) ∧
    revoke_tokens now2 user_id (revoke_tokens now user_id db)
      = revoke_tokens now user_id db ∧
    get_valid_token key t refreshReply user_id ar (revoke_tokens now user_id db)
      = .httpError 401 "No Dexcom authorization found. Please authorize with Dexcom first."
          (revoke_tokens now user_id db) := by
  have hdead : ∀ tok, activeFor user_id
      (if activeFor user_id tok then
        { tok with is_revoked := true, revoked_at := some now } else tok) = false := by
    intro tok
    by_cases htok : activeFor user_id tok
    · rw [if_pos htok]
      simp [activeFor]
    · rw [if_neg htok]
      simpa using htok
  have hnil : (revoke_tokens now user_id db).tokens.filter (activeFor user_id) = [] := by
    rw [List.filter_eq_nil_iff]
    intro a ha
    simp only [revoke_tokens, List.mem_map] at ha
    obtain ⟨tok, _, rfl⟩ := ha
    simp [hdead tok]
  refine ⟨?_, ?_, ?_, ?_⟩
  · intro tok hmem hact
    simp only [revoke_tokens]
    exact List.mem_map.mpr ⟨tok, hmem, by rw [if_pos hact]⟩
  · intro tok hmem hact
    simp only [revoke_tokens]
    refine List.mem_map.mpr ⟨tok, hmem, ?_⟩
    rw [if_neg (by simp [hact])]
  · simp only [revoke_tokens, List.map_map]
    congr 1
    apply List.map_congr_left
    intro tok _
    simp only [Function.comp_apply]
    by_cases htok : activeFor user_id tok
    · rw [if_pos htok, if_neg (by simp [activeFor])]
    · rw [if_neg htok, if_neg htok]
  · have hla : (revoke_tokens now user_id db).latestActive user_id = none :=
      latestActive_of_activeTokens_nil (by simpa [DB.activeTokens] using hnil)
    simp [get_valid_token, hla]

/-- C9: under the at-most-one-non-revoked-record invariant and with
all stored ciphertexts produced under the configured key,
`get_refresh_token` returns the decrypted refresh secret of the
latest non-revoked record of the principal, and fails with the 401
no-authorization error when the principal has none. -/
theorem get_refresh_token_latest_active (key : String) (user_id : Nat) (db : DB)
    (h1 : atMostOneActive db user_id)
    (h2 : ∀ t ∈ db.tokens, t.refresh_token_encrypted.keyUsed = key) :
    get_refresh_token key user_id db =
      match db.latestActive user_id with
      | none => .httpError 401 "No Dexcom authorization found."
      | some t => .ok t.refresh_token_encrypted.msg := by
  have hlen : (db.activeTokens user_id).length ≤ 1 := h1
  cases hat : db.activeTokens user_id with
  | nil =>
      have hfa : db.firstActive user_id = none := by
        rw [firstActive_of_activeTokens, hat]
        rfl
      have hla := latestActive_of_activeTokens_nil hat
      simp [get_refresh_token, hfa, hla]
  | cons t0 rest =>
      have hrest : rest = [] := by
        rw [hat] at hlen
        simpa using hlen
      subst hrest
      have hfa : db.firstActive user_id = some t0 := by
        rw [firstActive_of_activeTokens, hat]
        rfl
      have hla := latestActive_of_activeTokens_singleton hat
      have hmem : t0 ∈ db.tokens := by
        have ht : t0 ∈ db.activeTokens user_id := by rw [hat]; simp
        exact (List.mem_filter.mp (by simpa [DB.activeTokens] using ht)).1
      have hk := h2 t0 hmem
      simp [get_refresh_token, hfa, hla, decrypt, EncryptionService.decrypt,
        fernetDecrypt, hk]

/-- Witness for C9 on the §8 scenario database: the stored refresh
secret R1 is returned. -/
theorem get_refresh_token_latest_active_witness :
    get_refresh_token "K" 1 scenarioDB = .ok "R1" :=
  (get_refresh_token_latest_active "K" 1 scenarioDB
    (show scenarioDB.countActive 1 ≤ 1 by decide) (by decide)).trans rfl

/-- Witness for C1: even when the upstream would reply with the §8
refreshed grant, the scenario call returns the 401 refresh error. -/
theorem get_valid_token_refresh_always_unauthorized_witness :
    get_valid_token "K" 7100 (fun _ => .ok refreshedGrant) 1 true scenarioDB =
      .httpError 401
        ("Failed to refresh access token. User may need to re-authorize: DexcomAPIClient.__init__ missing 1 required positional argument: settings")
        scenarioDB :=
  (get_valid_token_refresh_always_unauthorized (fun _ => .ok refreshedGrant)).1

/-- Witness for C8 on the §8 scenario database: the active record is
revoked with the timestamp, the second revoke changes nothing and the
subsequent lookup is unauthorized. -/
theorem revoke_tokens_idempotent_witness :
    ({ (store_tokens "K" 0 1 sampleGrant none "offline_access" DB.empty).1 with
        is_revoked := true, revoked_at := some 5 } : DexcomToken)
      ∈ (revoke_tokens 5 1 scenarioDB).tokens ∧
    revoke_tokens 9 1 (revoke_tokens 5 1 scenarioDB) = revoke_tokens 5 1 scenarioDB ∧
    get_valid_token "K" 7100 (fun _ => .ok refreshedGrant) 1 true
        (revoke_tokens 5 1 scenarioDB)
      = .httpError 401 "No Dexcom authorization found. Please authorize with Dexcom first."
          (revoke_tokens 5 1 scenarioDB) :=
  ⟨(revoke_tokens_idempotent 5 9 1 scenarioDB "K" 7100 (fun _ => .ok refreshedGrant)
      true).1 _ (by decide) (by decide),
   (revoke_tokens_idempotent 5 9 1 scenarioDB "K" 7100 (fun _ => .ok refreshedGrant)
      true).2.2.1,
   (revoke_tokens_idempotent 5 9 1 scenarioDB "K" 7100 (fun _ => .ok refreshedGrant)
      true).2.2.2⟩

/-- Witness for C10 on the empty database. -/
theorem get_or_create_user_fresh_witness :
    (get_or_create_user none none DB.empty).2.users
      = DB.empty.users ++ [(get_or_create_user none none DB.empty).1] ∧
    (get_or_create_user none none DB.empty).1.id = DB.empty.next_user_id :=
  ⟨(get_or_create_user_fresh DB.empty).1, (get_or_create_user_fresh DB.empty).2.2.1⟩

end DMS
